import Mathlib

/-!
Verification of the frakt-rs distributed fractal renderer against its
natural-language specification.  The Rust sources are shallowly embedded:
byte streams become lists of naturals (each < 256 on the wire), machine
integers become naturals reduced modulo 2^32 or 2^16 where the source
performs fixed-width arithmetic (release-mode wrapping semantics), and
fallible operations return Option.  f32/f64 values that are only moved
around, never computed with, are represented by their 32-bit big-endian
bit patterns or by exact rationals; the Newton-Raphson kernels, which do
compute, are embedded over an abstract carrier with opaque arithmetic.
-/

/-! ## Wire codec (src/shared/src/networking/mod.rs) -/

/-- Big-endian bytes of a u32, as in `u32::to_be_bytes`. -/
def toBe32 (n : Nat) : List Nat :=
  [n / 2 ^ 24 % 256, n / 2 ^ 16 % 256, n / 2 ^ 8 % 256, n % 256]

/-- `u32::from_be_bytes` on a 4-byte list (0 on malformed input, which the
reader never produces). -/
def fromBe32 (l : List Nat) : Nat :=
  match l with
  | [a, b, c, d] => ((a * 256 + b) * 256 + c) * 256 + d
  | _ => 0

/-- The `usize as u32` / wrapping u32 cast. -/
def u32cast (n : Nat) : Nat := n % 2 ^ 32

/-- `AsyncReadExt::read_exact`: consume exactly `n` bytes from the front of
the stream or fail. -/
def read_exact (n : Nat) (s : List Nat) : Option (List Nat × List Nat) :=
  if n ≤ s.length then some (s.take n, s.drop n) else none

/-- UTF-8 continuation byte (10xxxxxx). -/
def isCont (b : Nat) : Bool := 128 ≤ b && b < 192

/-- Length of the well-formed UTF-8 scalar sequence at the front of the
list, if any (RFC 3629 table, as enforced by Rust's `str` machinery). -/
def utf8SeqLen : List Nat → Option Nat
  | [] => none
  | b :: rest =>
    if b < 128 then some 1
    else if 194 ≤ b ∧ b ≤ 223 then
      match rest with
      | c1 :: _ => if isCont c1 then some 2 else none
      | [] => none
    else if b = 224 then
      match rest with
      | c1 :: c2 :: _ =>
        if 160 ≤ c1 ∧ c1 ≤ 191 ∧ isCont c2 then some 3 else none
      | _ => none
    else if (225 ≤ b ∧ b ≤ 236) ∨ b = 238 ∨ b = 239 then
      match rest with
      | c1 :: c2 :: _ => if isCont c1 ∧ isCont c2 then some 3 else none
      | _ => none
    else if b = 237 then
      match rest with
      | c1 :: c2 :: _ =>
        if 128 ≤ c1 ∧ c1 ≤ 159 ∧ isCont c2 then some 3 else none
      | _ => none
    else if b = 240 then
      match rest with
      | c1 :: c2 :: c3 :: _ =>
        if 144 ≤ c1 ∧ c1 ≤ 191 ∧ isCont c2 ∧ isCont c3 then some 4 else none
      | _ => none
    else if 241 ≤ b ∧ b ≤ 243 then
      match rest with
      | c1 :: c2 :: c3 :: _ =>
        if isCont c1 ∧ isCont c2 ∧ isCont c3 then some 4 else none
      | _ => none
    else if b = 244 then
      match rest with
      | c1 :: c2 :: c3 :: _ =>
        if 128 ≤ c1 ∧ c1 ≤ 143 ∧ isCont c2 ∧ isCont c3 then some 4 else none
      | _ => none
    else none

/-- Fuel-indexed UTF-8 validity check over raw bytes. -/
def utf8ValidAux : Nat → List Nat → Bool
  | _, [] => true
  | 0, _ :: _ => false
  | fuel + 1, l =>
    match utf8SeqLen l with
    | some n => utf8ValidAux fuel (l.drop n)
    | none => false

/-- A byte list is valid UTF-8. -/
def utf8Valid (l : List Nat) : Bool := utf8ValidAux l.length l

/-- Fuel-indexed byte-level model of `String::from_utf8_lossy`: well-formed
sequences are copied, an offending byte is replaced by U+FFFD (EF BF BD). -/
def utf8LossyAux : Nat → List Nat → List Nat
  | _, [] => []
  | 0, l => l
  | fuel + 1, b :: rest =>
    match utf8SeqLen (b :: rest) with
    | some n => (b :: rest).take n ++ utf8LossyAux fuel ((b :: rest).drop n)
    | none => 239 :: 191 :: 189 :: utf8LossyAux fuel rest

/-- Byte-level model of `String::from_utf8_lossy` (the resulting `String`
is represented by its UTF-8 bytes). -/
def from_utf8_lossy (l : List Nat) : List Nat := utf8LossyAux l.length l

/-- `RawMessage` from src/shared/src/networking/mod.rs; `json_message` holds
the UTF-8 bytes of the decoded string. -/
structure RawMessage where
  message_length : Nat
  json_length : Nat
  json_message : List Nat
  data : List Nat
  deriving Repr, DecidableEq

/-- `send_message`: frames `json_message` and optional `data` as
total-length, json-length (both big-endian u32, `len() as u32` truncating),
json bytes, then data bytes, and writes the buffer to the stream. -/
def send_message (json_message : List Nat) (data : Option (List Nat)) : List Nat :=
  let json_message_size := u32cast json_message.length
  let data_size := match data with
    | some d => u32cast d.length
    | none => 0
  let total_message_size := (json_message_size + data_size) % 2 ^ 32
  toBe32 total_message_size ++ toBe32 json_message_size ++ json_message ++
    (match data with | some d => d | none => [])

/-- `read_message_length`: 4 bytes, big-endian u32. -/
def read_message_length (s : List Nat) : Option (Nat × List Nat) :=
  (read_exact 4 s).map fun p => (fromBe32 p.1, p.2)

/-- `read_json_message`: exactly `length` bytes, lossily decoded. -/
def read_json_message (length : Nat) (s : List Nat) : Option (List Nat × List Nat) :=
  (read_exact length s).map fun p => (from_utf8_lossy p.1, p.2)

/-- `read_binary_data`: exactly `length` raw bytes. -/
def read_binary_data (length : Nat) (s : List Nat) : Option (List Nat × List Nat) :=
  read_exact length s

/-- `read_message_raw`: two big-endian u32 lengths, then the JSON bytes,
then `message_length - json_length` binary bytes.  The subtraction is u32
arithmetic; with release semantics it wraps modulo 2^32. -/
def read_message_raw (s : List Nat) : Option (RawMessage × List Nat) :=
  match read_message_length s with
  | none => none
  | some (message_length, s1) =>
    match read_message_length s1 with
    | none => none
    | some (json_length, s2) =>
      match read_json_message json_length s2 with
      | none => none
      | some (json_message, s3) =>
        match read_binary_data ((message_length + 2 ^ 32 - json_length) % 2 ^ 32) s3 with
        | none => none
        | some (data, s4) =>
          some (⟨message_length, json_length, json_message, data⟩, s4)

/-! ## Wire codec lemmas -/

lemma fromBe32_toBe32 (n : Nat) : fromBe32 (toBe32 n) = n % 2 ^ 32 := by
  simp only [toBe32, fromBe32]
  omega

lemma read_exact_append (l r : List Nat) : read_exact l.length (l ++ r) = some (l, r) := by
  unfold read_exact
  rw [if_pos]
  · rw [List.take_left, List.drop_left]
  · simp

lemma read_message_length_append (n : Nat) (r : List Nat) :
    read_message_length (toBe32 n ++ r) = some (n % 2 ^ 32, r) := by
  have h4 : read_exact 4 (toBe32 n ++ r) = some (toBe32 n, r) := read_exact_append (toBe32 n) r
  unfold read_message_length
  rw [h4, Option.map_some']
  rw [fromBe32_toBe32]

lemma utf8LossyAux_of_valid : ∀ fuel l, utf8ValidAux fuel l = true → utf8LossyAux fuel l = l := by
  intro fuel
  induction fuel with
  | zero =>
    intro l h
    cases l with
    | nil => rfl
    | cons b rest => simp [utf8ValidAux] at h
  | succ fuel ih =>
    intro l h
    cases l with
    | nil => rfl
    | cons b rest =>
      cases hs : utf8SeqLen (b :: rest) with
      | none => simp only [utf8ValidAux, hs] at h; exact absurd h (by simp)
      | some n =>
        simp only [utf8ValidAux, hs] at h
        simp only [utf8LossyAux, hs]
        rw [ih _ h]
        exact List.take_append_drop n (b :: rest)

lemma from_utf8_lossy_of_valid {l : List Nat} (h : utf8Valid l = true) :
    from_utf8_lossy l = l :=
  utf8LossyAux_of_valid l.length l h

lemma utf8ValidAux_ascii :
    ∀ fuel l, l.length ≤ fuel → (∀ b ∈ l, b < 128) → utf8ValidAux fuel l = true := by
  intro fuel
  induction fuel with
  | zero =>
    intro l hl _
    cases l with
    | nil => rfl
    | cons b rest => simp at hl
  | succ fuel ih =>
    intro l hl hb
    cases l with
    | nil => rfl
    | cons b rest =>
      have hb0 : b < 128 := hb b (List.mem_cons_self b rest)
      have hs : utf8SeqLen (b :: rest) = some 1 := by
        simp only [utf8SeqLen]
        rw [if_pos hb0]
      simp only [utf8ValidAux, hs, List.drop_succ_cons, List.drop_zero]
      exact ih rest (by simpa using Nat.le_of_succ_le_succ hl) fun c hc => hb c (List.mem_cons_of_mem b hc)

lemma utf8Valid_ascii {l : List Nat} (h : ∀ b ∈ l, b < 128) : utf8Valid l = true :=
  utf8ValidAux_ascii l.length l le_rfl h

/-- Helper framing lemma: reading back one well-formed frame consumes it
exactly and returns the decoded header and payload. -/
lemma read_message_raw_frame (T J : Nat) (j b : List Nat) (hT : T < 2 ^ 32)
    (hjl : j.length = J) (hbl : b.length = T - J) (hTJ : J ≤ T) :
    read_message_raw (toBe32 T ++ (toBe32 J ++ (j ++ b))) =
      some (⟨T, J, from_utf8_lossy j, b⟩, []) := by
  have hJ : J < 2 ^ 32 := lt_of_le_of_lt hTJ hT
  have h1 : read_message_length (toBe32 T ++ (toBe32 J ++ (j ++ b))) =
      some (T, toBe32 J ++ (j ++ b)) := by
    rw [read_message_length_append, Nat.mod_eq_of_lt hT]
  have h2 : read_message_length (toBe32 J ++ (j ++ b)) = some (J, j ++ b) := by
    rw [read_message_length_append, Nat.mod_eq_of_lt hJ]
  have h3 : read_json_message J (j ++ b) = some (from_utf8_lossy j, b) := by
    unfold read_json_message
    rw [← hjl, read_exact_append, Option.map_some']
  have hbin : (T + 2 ^ 32 - J) % 2 ^ 32 = T - J := by omega
  have h4 : read_binary_data ((T + 2 ^ 32 - J) % 2 ^ 32) b = some (b, []) := by
    unfold read_binary_data read_exact
    rw [hbin, ← hbl]
    rw [if_pos le_rfl]
    simp
  simp only [read_message_raw, h1, h2, h3, h4]

/-! ## C1, C3: codec claims -/

/-- Modelled from the spec: recognizer for the sub-grammar of JSON unsigned
integer literals (a nonempty digit string without a leading zero); every
such byte string is a complete, valid UTF-8 JSON document. -/
def json_int_literal (l : List Nat) : Bool :=
  decide (l ≠ []) && l.all (fun b => 48 ≤ b && b ≤ 57) && decide (l.head? ≠ some 48)

lemma json_int_literal_replicate_one (n : Nat) (hn : n ≠ 0) :
    json_int_literal (List.replicate n 49) = true := by
  obtain ⟨m, rfl⟩ := Nat.exists_eq_succ_of_ne_zero hn
  unfold json_int_literal
  simp only [Bool.and_eq_true, decide_eq_true_eq]
  refine ⟨⟨by simp, ?_⟩, by rw [List.replicate_succ]; simp⟩
  simp [List.all_eq_true, List.mem_replicate]

/-- Any header of exactly 2^32 bytes round-trips into an empty header: the
`len() as u32` cast in send_message truncates the length to 0. -/
lemma read_message_raw_wrapped_header (j : List Nat) (hlen : j.length = 2 ^ 32) :
    (read_message_raw (send_message j (some []))).map
      (fun p => (p.1.json_message, p.1.data)) = some ([], []) := by
  have hstream : send_message j (some []) = toBe32 0 ++ (toBe32 0 ++ j) := by
    simp only [send_message, u32cast, hlen, List.length_nil]
    norm_num
  rw [hstream]
  have h1 : read_message_length (toBe32 0 ++ (toBe32 0 ++ j)) = some (0, toBe32 0 ++ j) := by
    rw [read_message_length_append]; norm_num
  have h2 : read_message_length (toBe32 0 ++ j) = some (0, j) := by
    rw [read_message_length_append]; norm_num
  have h3 : read_json_message 0 j = some ([], j) := by
    unfold read_json_message read_exact
    rw [if_pos (Nat.zero_le _)]
    simp [from_utf8_lossy, utf8LossyAux]
  have h4 : read_binary_data ((0 + 2 ^ 32 - 0) % 2 ^ 32) j = some ([], j) := by
    have hz : (0 + 2 ^ 32 - 0) % 2 ^ 32 = 0 := by norm_num
    unfold read_binary_data read_exact
    rw [hz, if_pos (Nat.zero_le _)]
    simp
  simp only [read_message_raw, h1, h2, h3, h4, Option.map_some']

/-- C1 (counterexample): the round trip as claimed fails for a valid UTF-8
JSON header of 2^32 bytes (the digit string 11...1, a JSON integer literal)
and an empty binary payload: the u32 length casts in send_message wrap to
zero, so read_message_raw returns an empty header instead of the sent one. -/
theorem C1_counterexample :
    utf8Valid (List.replicate (2 ^ 32) 49) = true ∧
    json_int_literal (List.replicate (2 ^ 32) 49) = true ∧
    (read_message_raw (send_message (List.replicate (2 ^ 32) 49) (some []))).map
        (fun p => (p.1.json_message, p.1.data)) = some ([], []) ∧
    List.replicate (2 ^ 32) 49 ≠ ([] : List Nat) := by
  have hlen : (List.replicate (2 ^ 32) 49).length = 2 ^ 32 := List.length_replicate _ _
  refine ⟨?_, ?_, ?_, ?_⟩
  · exact utf8Valid_ascii (by intro b hb; rw [List.eq_of_mem_replicate hb]; omega)
  · exact json_int_literal_replicate_one _ (by norm_num)
  · exact read_message_raw_wrapped_header _ hlen
  · intro h
    rw [h] at hlen
    exact absurd hlen.symm (by norm_num)

/-- C1 (amended): writing a frame with send_message and reading it back
with read_message_raw restores the JSON header and binary payload
byte-for-byte, for every valid-UTF-8 header j and payload b with
0 <= |b| <= 1 MiB, provided the frame fits the 32-bit length fields
(|j| + |b| < 2^32). -/
theorem C1_roundtrip (j b : List Nat) (hu : utf8Valid j = true)
    (hsize : j.length + b.length < 2 ^ 32) (hmib : b.length ≤ 2 ^ 20) :
    read_message_raw (send_message j (some b)) =
      some (⟨j.length + b.length, j.length, j, b⟩, []) := by
  have hj : j.length < 2 ^ 32 := by omega
  have hb' : b.length < 2 ^ 32 := by omega
  have hstream : send_message j (some b) =
      toBe32 (j.length + b.length) ++ (toBe32 j.length ++ (j ++ b)) := by
    simp only [send_message, u32cast]
    rw [Nat.mod_eq_of_lt hj, Nat.mod_eq_of_lt hb', Nat.mod_eq_of_lt hsize]
    simp [List.append_assoc]
  rw [hstream,
    read_message_raw_frame (j.length + b.length) j.length j b hsize rfl (by omega) (by omega),
    from_utf8_lossy_of_valid hu]

/-- Witness for C1_roundtrip at a concrete frame. -/
theorem C1_roundtrip_witness :
    read_message_raw (send_message [123, 125] (some [1, 2, 3])) =
      some (⟨5, 2, [123, 125], [1, 2, 3]⟩, []) := by
  simpa using C1_roundtrip [123, 125] [1, 2, 3] (by decide) (by decide) (by decide)

/-- C3: an incoming frame whose declared json_len exceeds its declared
total_len makes read_message_raw fail by returning an error: the JSON read
asks for more bytes than the frame carries, so the exact read fails before
the length subtraction is ever evaluated. -/
theorem C3_misaligned_header_error (total_len json_len : Nat) (payload : List Nat)
    (ht : total_len < 2 ^ 32) (hj : json_len < 2 ^ 32) (hlt : total_len < json_len)
    (hp : payload.length = total_len) :
    read_message_raw (toBe32 total_len ++ (toBe32 json_len ++ payload)) = none := by
  have h1 : read_message_length (toBe32 total_len ++ (toBe32 json_len ++ payload)) =
      some (total_len, toBe32 json_len ++ payload) := by
    rw [read_message_length_append, Nat.mod_eq_of_lt ht]
  have h2 : read_message_length (toBe32 json_len ++ payload) = some (json_len, payload) := by
    rw [read_message_length_append, Nat.mod_eq_of_lt hj]
  have h3 : read_json_message json_len payload = none := by
    unfold read_json_message read_exact
    rw [if_neg (by omega)]
    rfl
  simp only [read_message_raw, h1, h2, h3]

/-- Witness for C3_misaligned_header_error: the spec's S5 scenario,
total_len = 10 with json_len = 20. -/
theorem C3_misaligned_header_error_witness :
    read_message_raw (toBe32 10 ++ (toBe32 20 ++ List.replicate 10 7)) = none :=
  C3_misaligned_header_error 10 20 (List.replicate 10 7) (by norm_num) (by norm_num)
    (by norm_num) (by simp)

/-! ## Graphics engine (src/shared/src/graphics/mod.rs) -/

/-- The linear RGBA index computed by `GraphicsWorld::draw_pixel`,
`(y * canvas_width + x) * 4` in u32 arithmetic. -/
def draw_pixel_index (canvas_width x y : Nat) : Nat :=
  (y * canvas_width + x) * 4 % 2 ^ 32

/-- `GraphicsWorld::draw_pixel`: when `index + 3` is inside the frame
buffer the four RGBA bytes are written (alpha 0xff), otherwise the source
panics, modelled as `none`.  The palette's `calculate_color` is passed in
as `color`. -/
def draw_pixel {α : Type} (color : α → Nat × Nat × Nat) (frame_buffer : List Nat)
    (canvas_width x y : Nat) (t : α) : Option (List Nat) :=
  if draw_pixel_index canvas_width x y + 3 < frame_buffer.length then
    some ((((frame_buffer.set (draw_pixel_index canvas_width x y) (color t).1).set
      (draw_pixel_index canvas_width x y + 1) (color t).2.1).set
      (draw_pixel_index canvas_width x y + 2) (color t).2.2).set
      (draw_pixel_index canvas_width x y + 3) 255)
  else none

/-- One fragment blit of `GraphicsWorld::render`: outer loop over y in
[0, ny), inner loop over x in [0, nx); the iteration count is read at
index `x + y * ny` (u16 arithmetic on the resolution fields) and drawn at
canvas position (start_x + x, start_y + y) (u32 arithmetic).  An
out-of-range read of the iterations vector panics, modelled as `none`. -/
def render_fragment {α : Type} (color : α → Nat × Nat × Nat) (canvas_width : Nat)
    (nx ny : Nat) (iterations : List α) (start_x start_y : Nat)
    (frame_buffer : List Nat) : Option (List Nat) :=
  (List.range ny).foldl
    (fun acc y => acc.bind fun fb =>
      (List.range nx).foldl
        (fun acc2 x => acc2.bind fun fb2 =>
          match iterations[(x + y * ny) % 2 ^ 16]? with
          | none => none
          | some t =>
            draw_pixel color fb2 canvas_width ((start_x + x) % 2 ^ 32)
              ((start_y + y) % 2 ^ 32) t)
        (some fb))
    (some frame_buffer)

/-- C2: the renderer reads pixel (x, y) at index x + y * ny, not at the
claimed row-major index y * nx + x.  On the 3x2 tile below, canvas pixel
(0, 1) receives iterations[2] (the claimed index is 3), iterations[5] is
never read, and on the transposed 2x3 tile the read index 0 + 2*3 = 6
falls outside the six-element iterations vector and the renderer panics. -/
theorem C2_stride_eval :
    render_fragment (fun t => (t, t, t)) 3 3 2 [10, 11, 12, 13, 14, 15] 0 0
        (List.replicate 24 0) =
      some [10, 10, 10, 255, 11, 11, 11, 255, 12, 12, 12, 255,
            12, 12, 12, 255, 13, 13, 13, 255, 14, 14, 14, 255] ∧
    render_fragment (fun t => (t, t, t)) 2 2 3 [10, 11, 12, 13, 14, 15] 0 0
        (List.replicate 24 0) = none := by
  constructor <;> rfl

/-- C4 (counterexample): blitting a 1x1 tile whose projected origin
(0, 4) lies below a 2x2 canvas does not skip the out-of-bounds write: the
RGBA index 32 exceeds the 16-byte frame buffer and draw_pixel panics. -/
theorem C4_counterexample :
    render_fragment (fun t : Nat => (t, t, t)) 2 1 1 [7] 0 4 (List.replicate 16 0) = none := by
  rfl

/-- C4 (amended): draw_pixel writes a pixel exactly when the linear RGBA
index (y * canvas_width + x) * 4 + 3 lies inside the frame buffer — even
when x reaches beyond canvas_width, in which case the write wraps onto a
later row instead of being skipped — and panics otherwise; a successful
write preserves the buffer length and every byte outside the four written
positions. -/
theorem C4_draw_pixel_bounds {α : Type} (color : α → Nat × Nat × Nat)
    (frame_buffer : List Nat) (canvas_width x y : Nat) (t : α) :
    (frame_buffer.length ≤ draw_pixel_index canvas_width x y + 3 →
      draw_pixel color frame_buffer canvas_width x y t = none) ∧
    (∀ fb', draw_pixel color frame_buffer canvas_width x y t = some fb' →
      fb'.length = frame_buffer.length ∧
      ∀ i, (i < draw_pixel_index canvas_width x y ∨
            draw_pixel_index canvas_width x y + 3 < i) →
        fb'[i]? = frame_buffer[i]?) := by
  constructor
  · intro h
    unfold draw_pixel
    rw [if_neg (by omega)]
  · intro fb' h
    unfold draw_pixel at h
    by_cases hlt : draw_pixel_index canvas_width x y + 3 < frame_buffer.length
    · rw [if_pos hlt] at h
      cases h
      refine ⟨by simp, ?_⟩
      intro i hi
      rw [List.getElem?_set_ne (by omega), List.getElem?_set_ne (by omega),
        List.getElem?_set_ne (by omega), List.getElem?_set_ne (by omega)]
    · rw [if_neg hlt] at h
      cases h

/-- Witness for C4_draw_pixel_bounds: the out-of-bounds branch at the
concrete input of the counterexample. -/
theorem C4_draw_pixel_bounds_witness :
    draw_pixel (fun t : Nat => (t, t, t)) (List.replicate 16 0) 2 0 4 7 = none :=
  (C4_draw_pixel_bounds (fun t : Nat => (t, t, t)) (List.replicate 16 0) 2 0 4 7).1
    (by decide)

/-! ## Server fragment-result processing (src/server/src/lib.rs) -/

/-- `U8Data` from src/shared/src/models/u8_data/mod.rs (u32 fields). -/
structure U8Data where
  offset : Nat
  count : Nat
  deriving Repr, DecidableEq

/-- `Resolution` from src/shared/src/models/resolution/mod.rs (u16
fields). -/
structure Resolution where
  nx : Nat
  ny : Nat
  deriving Repr, DecidableEq

/-- `Point` from src/shared/src/models/point/mod.rs; the f64 coordinates
are represented as exact rationals (no claim computes with them). -/
structure Point where
  x : ℚ
  y : ℚ
  deriving Repr, DecidableEq

/-- `Range` from src/shared/src/models/range/mod.rs. -/
structure Range where
  min : Point
  max : Point
  deriving Repr, DecidableEq

/-- Modelled from the spec: `FragmentResult` (its defining file
fragment_result.rs is not under src/): id, resolution, range and pixels,
with `pixels.offset` marking the header bytes of the payload. -/
structure FragmentResult where
  id : U8Data
  resolution : Resolution
  range : Range
  pixels : U8Data
  deriving Repr, DecidableEq

/-- `PixelIntensity` from src/shared/src/models/pixel/pixel_intensity.rs;
the two f32 fields are represented by the 32-bit patterns obtained from
their big-endian bytes (the server only moves them, never computes). -/
structure PixelIntensity where
  zn : Nat
  count : Nat
  deriving Repr, DecidableEq

/-- `chunks_exact(8)`: the maximal list of consecutive 8-byte chunks. -/
def chunks8 (l : List Nat) : List (List Nat) :=
  if _h : 8 ≤ l.length then
    l.take 8 :: chunks8 (l.drop 8)
  else []
termination_by l.length
decreasing_by
  rw [List.length_drop]
  omega

/-- The pixel-decoding loop of `process_fragment_result`: each 8-byte
chunk yields `zn` from bytes 0..4 and `count` from bytes 4..8, both
big-endian (`filter_map` never drops a chunk since every chunk has
exactly 8 bytes). -/
def decode_pixel_intensities (data : List Nat) : List PixelIntensity :=
  (chunks8 data).map fun chunk =>
    ⟨fromBe32 (chunk.take 4), fromBe32 ((chunk.drop 4).take 4)⟩

/-- `Worker` registry entry (name and workload are all the processing
path reads). -/
structure Worker where
  name : String
  maximal_work_load : Nat
  deriving Repr, DecidableEq

/-- Modelled from the spec: the worker registry of `ServerState`, a
mapping endpoint -> Worker (the registry-bearing `Server` type is not
under src/; only its callers are). -/
structure ServerModel where
  workers : List (String × Worker)
  deriving Repr, DecidableEq

/-- Modelled from the spec: `get_worker(endpoint) -> Option<&Worker>` is
read-only. -/
def get_worker (server : ServerModel) (socket_addr : String) : Option Worker :=
  (server.workers.find? fun p => p.1 == socket_addr).map Prod.snd

/-- Modelled from the spec: `notify_portal` snapshots the current state
and sends it through the portal channel; the state itself (in particular
the worker registry) is unchanged. -/
def notify_portal (server : ServerModel) : ServerModel :=
  server

/-- `RenderingData` as built by `process_fragment_result`: the result,
the per-pixel counts (f32 bit patterns widened to f64, an injective,
value-preserving cast) and the worker name. -/
structure RenderingData where
  result : FragmentResult
  iterations : List Nat
  worker : String
  deriving Repr, DecidableEq

/-- Observable effects of one `process_fragment_result` call: whether the
call panicked, the RenderingData messages sent on the portal and render
channels (in source order: portal first), and the server state
afterwards. -/
structure ProcessEffects where
  panicked : Bool
  portal_sent : List RenderingData
  render_sent : List RenderingData
  server : ServerModel
  deriving Repr, DecidableEq

/-- `process_fragment_result` from src/server/src/lib.rs: slices off the
first `pixels.offset` payload bytes (the unchecked `&data[offset..]`
panics when offset exceeds the payload length), rejects payloads whose
remaining length is not a multiple of 8 by returning before any send,
decodes the pixel intensities, resolves the worker name through the
registry (or synthesizes `worker-<uuid>`), and sends the RenderingData on
the portal and render channels. -/
def process_fragment_result (result : FragmentResult) (data : List Nat)
    (socket_addr : String) (fresh_uuid : String) (server : ServerModel) :
    ProcessEffects :=
  if result.pixels.offset ≤ data.length then
    let rest := data.drop result.pixels.offset
    if rest.length % 8 ≠ 0 then
      ⟨false, [], [], server⟩
    else
      let pixel_intensities := decode_pixel_intensities rest
      let iterations := pixel_intensities.map fun pi => pi.count
      let worker := match get_worker server socket_addr with
        | some w => w.name
        | none => "worker-" ++ fresh_uuid
      let rendering_data : RenderingData := ⟨result, iterations, worker⟩
      ⟨false, [rendering_data], [rendering_data], notify_portal server⟩
  else
    ⟨true, [], [], server⟩

/-- C5: a FragmentResult whose payload, after skipping the first
pixels.offset bytes, has a length that is not a multiple of 8 is
rejected: process_fragment_result returns before sending any
RenderingData on the render or portal channel. -/
theorem C5_misaligned_payload_rejected (result : FragmentResult) (data : List Nat)
    (socket_addr fresh_uuid : String) (server : ServerModel)
    (hoff : result.pixels.offset ≤ data.length)
    (hmis : (data.length - result.pixels.offset) % 8 ≠ 0) :
    (process_fragment_result result data socket_addr fresh_uuid server).render_sent = [] ∧
    (process_fragment_result result data socket_addr fresh_uuid server).portal_sent = [] := by
  have hrest : (data.drop result.pixels.offset).length % 8 ≠ 0 := by
    rw [List.length_drop]
    exact hmis
  unfold process_fragment_result
  rw [if_pos hoff, if_pos hrest]
  exact ⟨rfl, rfl⟩

/-- Witness for C5_misaligned_payload_rejected: offset 1 over a 3-byte
payload leaves 2 bytes, not a multiple of 8. -/
theorem C5_misaligned_payload_rejected_witness :
    (process_fragment_result ⟨⟨0, 0⟩, ⟨1, 1⟩, ⟨⟨0, 0⟩, ⟨1, 1⟩⟩, ⟨1, 2⟩⟩ [0, 0, 0]
        "127.0.0.1:4000" "u" ⟨[]⟩).render_sent = [] ∧
    (process_fragment_result ⟨⟨0, 0⟩, ⟨1, 1⟩, ⟨⟨0, 0⟩, ⟨1, 1⟩⟩, ⟨1, 2⟩⟩ [0, 0, 0]
        "127.0.0.1:4000" "u" ⟨[]⟩).portal_sent = [] :=
  C5_misaligned_payload_rejected ⟨⟨0, 0⟩, ⟨1, 1⟩, ⟨⟨0, 0⟩, ⟨1, 1⟩⟩, ⟨1, 2⟩⟩ [0, 0, 0]
    "127.0.0.1:4000" "u" ⟨[]⟩ (by decide) (by decide)

/-- The worker name attached to a forwarded RenderingData: the registered
name when the endpoint is in the registry, else the synthesized
`worker-<uuid>` (which begins with "worker-"). -/
def worker_name_ok (server : ServerModel) (socket_addr fresh_uuid : String)
    (rd : RenderingData) : Bool :=
  match get_worker server socket_addr with
  | some w => rd.worker == w.name
  | none => rd.worker == "worker-" ++ fresh_uuid

/-- C6: processing a FragmentResult never adds, removes or modifies a
worker-registry entry, and every RenderingData it forwards (on either
channel) carries the registered worker's name when the sending endpoint
is registered, and otherwise the synthesized name "worker-" ++ uuid. -/
theorem C6_registry_untouched_and_name (result : FragmentResult) (data : List Nat)
    (socket_addr fresh_uuid : String) (server : ServerModel) :
    (process_fragment_result result data socket_addr fresh_uuid server).server.workers =
      server.workers ∧
    ((process_fragment_result result data socket_addr fresh_uuid server).render_sent ++
        (process_fragment_result result data socket_addr fresh_uuid server).portal_sent).all
      (worker_name_ok server socket_addr fresh_uuid) = true := by
  unfold process_fragment_result notify_portal
  dsimp only
  split_ifs with h1 h2
  · exact ⟨rfl, rfl⟩
  · refine ⟨rfl, ?_⟩
    cases hgw : get_worker server socket_addr with
    | none => simp [worker_name_ok, hgw]
    | some w => simp [worker_name_ok, hgw]
  · exact ⟨rfl, rfl⟩

/-- C10: the unchecked slice `&data[offset..]` makes
process_fragment_result total only under the U8Data precondition
offset <= payload length: it panics whenever pixels.offset exceeds the
payload length, and never panics otherwise. -/
theorem C10_offset_precondition (result : FragmentResult) (data : List Nat)
    (socket_addr fresh_uuid : String) (server : ServerModel) :
    (data.length < result.pixels.offset →
      (process_fragment_result result data socket_addr fresh_uuid server).panicked = true) ∧
    (result.pixels.offset ≤ data.length →
      (process_fragment_result result data socket_addr fresh_uuid server).panicked = false) := by
  constructor
  · intro h
    unfold process_fragment_result
    rw [if_neg (by omega)]
  · intro h
    unfold process_fragment_result
    rw [if_pos h]
    dsimp only
    split_ifs <;> rfl

/-- Witness for C10_offset_precondition: offset 5 over an empty payload
panics. -/
theorem C10_offset_precondition_witness :
    (process_fragment_result ⟨⟨0, 0⟩, ⟨1, 1⟩, ⟨⟨0, 0⟩, ⟨1, 1⟩⟩, ⟨5, 0⟩⟩ []
        "127.0.0.1:4000" "u" ⟨[]⟩).panicked = true :=
  (C10_offset_precondition ⟨⟨0, 0⟩, ⟨1, 1⟩, ⟨⟨0, 0⟩, ⟨1, 1⟩⟩, ⟨5, 0⟩⟩ []
    "127.0.0.1:4000" "u" ⟨[]⟩).1 (by decide)

/-! ## Newton-Raphson kernels (src/shared/src/models/fractal/newton_raphson_3.rs,
newton_raphson_4.rs, src/complex-rs/src/complex.rs)

f64 arithmetic is embedded over an abstract carrier with opaque
operations: the theorems compare the structure of the computations, and
evaluation order is fixed to the source's, since floating-point
multiplication is not associative and the spec's real-number formulas do
not determine an order. -/

/-- Opaque f64 operations. -/
structure FloatOps (α : Type) where
  fadd : α → α → α
  fsub : α → α → α
  fmul : α → α → α
  fdiv : α → α → α
  fcos : α → α
  flog10 : α → α
  flt : α → α → Bool
  ofRat : ℚ → α
  ofNat : Nat → α

/-- `Complex` from src/complex-rs/src/complex.rs. -/
structure Cplx (α : Type) where
  re : α
  im : α

/-- `Complex::mul` from src/complex-rs/src/complex.rs. -/
def cmul {α : Type} (fp : FloatOps α) (a b : Cplx α) : Cplx α :=
  ⟨fp.fsub (fp.fmul a.re b.re) (fp.fmul a.im b.im),
   fp.fadd (fp.fmul a.re b.im) (fp.fmul a.im b.re)⟩

/-- `Complex::arg_sq` from src/complex-rs/src/complex.rs: re^2 + im^2. -/
def arg_sq {α : Type} (fp : FloatOps α) (a : Cplx α) : α :=
  fp.fadd (fp.fmul a.re a.re) (fp.fmul a.im a.im)

/-- Modelled from the spec: the `Sub` and `Div` impls and the `arg`
method of `Complex` live in the complex-rs crate outside src/; they are
kept opaque, which suffices because code and spec apply them to equal
arguments. -/
structure CplxOps (α : Type) where
  csub : Cplx α → Cplx α → Cplx α
  cdiv : Cplx α → Cplx α → Cplx α
  carg : Cplx α → α

/-- `NewtonRaphsonZ3::fz`: z * z * z - (1, 0). -/
def nr3_fz {α : Type} (fp : FloatOps α) (co : CplxOps α) (z : Cplx α) : Cplx α :=
  co.csub (cmul fp (cmul fp z z) z) ⟨fp.ofRat 1, fp.ofRat 0⟩

/-- `NewtonRaphsonZ3::dfz`: (3, 0) * z * z. -/
def nr3_dfz {α : Type} (fp : FloatOps α) (z : Cplx α) : Cplx α :=
  cmul fp (cmul fp ⟨fp.ofRat 3, fp.ofRat 0⟩ z) z

/-- `NewtonRaphsonZ4::fz`: z * z * z * z - (1, 0). -/
def nr4_fz {α : Type} (fp : FloatOps α) (co : CplxOps α) (z : Cplx α) : Cplx α :=
  co.csub (cmul fp (cmul fp (cmul fp z z) z) z) ⟨fp.ofRat 1, fp.ofRat 0⟩

/-- `NewtonRaphsonZ4::dfz`: (4, 0) * z * z * z. -/
def nr4_dfz {α : Type} (fp : FloatOps α) (z : Cplx α) : Cplx α :=
  cmul fp (cmul fp (cmul fp ⟨fp.ofRat 4, fp.ofRat 0⟩ z) z) z

/-- `NewtonRaphsonZ3::convergence_value` (and, per the spec, the shared
`utils::convergence_value` used by Z4): accuracy = log10(threshold);
0.5 - 0.5 * cos(0.1 * (count - log10(pzn) / accuracy)) below nmax, else
1.0. -/
def convergence_value {α : Type} (fp : FloatOps α) (pzn threshold : α)
    (count nmax : Nat) : α :=
  if count < nmax then
    fp.fsub (fp.ofRat (1 / 2))
      (fp.fmul (fp.ofRat (1 / 2))
        (fp.fcos (fp.fmul (fp.ofRat (1 / 10))
          (fp.fsub (fp.ofNat count) (fp.fdiv (fp.flog10 pzn) (fp.flog10 threshold))))))
  else fp.ofRat 1

/-- Modelled from the spec: `utils::convergence_value` (the shared
fractal utils module is not under src/); the spec gives the same formula
for both kernels. -/
def utils_convergence_value {α : Type} (fp : FloatOps α) (pzn threshold : α)
    (count nmax : Nat) : α :=
  convergence_value fp pzn threshold count nmax

/-- The update step `z - fz(z) / dfz(z)` of NewtonRaphsonZ3. -/
def nr3_step {α : Type} (fp : FloatOps α) (co : CplxOps α) (z : Cplx α) : Cplx α :=
  co.csub z (co.cdiv (nr3_fz fp co z) (nr3_dfz fp z))

/-- The update step `z - fz(z) / dfz(z)` of NewtonRaphsonZ4. -/
def nr4_step {α : Type} (fp : FloatOps α) (co : CplxOps α) (z : Cplx α) : Cplx α :=
  co.csub z (co.cdiv (nr4_fz fp co z) (nr4_dfz fp z))

/-- The source's iteration loop: compute zn_next, stop (without the final
assignment) when |zn_next - z|^2 < 1e-6 or i >= max_iterations, else
assign and increment.  Fuel max_iterations + 1 always suffices because i
starts at 0 and the loop stops at i >= max_iterations. -/
def nr_loop {α : Type} (fp : FloatOps α) (co : CplxOps α) (step : Cplx α → Cplx α)
    (max_iterations : Nat) : Nat → Cplx α → Nat → Cplx α × Nat
  | 0, z, i => (z, i)
  | fuel + 1, z, i =>
    if fp.flt (arg_sq fp (co.csub (step z) z)) (fp.ofRat (1 / 1000000)) ||
        decide (i ≥ max_iterations) then
      (z, i)
    else
      nr_loop fp co step max_iterations fuel (step z) (i + 1)

/-- `NewtonRaphsonZ3::generate`. -/
def nr3_generate {α : Type} (fp : FloatOps α) (co : CplxOps α)
    (max_iterations : Nat) (x y : α) : α × α :=
  match nr_loop fp co (nr3_step fp co) max_iterations (max_iterations + 1) ⟨x, y⟩ 0 with
  | (z, i) =>
    (co.carg z,
     fp.fmul (fp.ofNat i)
       (if i < max_iterations then
          convergence_value fp (arg_sq fp z) (fp.ofRat (1 / 1000000)) i max_iterations
        else fp.ofRat 1))

/-- `NewtonRaphsonZ4::generate`. -/
def nr4_generate {α : Type} (fp : FloatOps α) (co : CplxOps α)
    (max_iterations : Nat) (x y : α) : α × α :=
  match nr_loop fp co (nr4_step fp co) max_iterations (max_iterations + 1) ⟨x, y⟩ 0 with
  | (z, i) =>
    (co.carg z,
     fp.fmul (fp.ofNat i)
       (if i < max_iterations then
          utils_convergence_value fp (arg_sq fp z) (fp.ofRat (1 / 1000000)) i max_iterations
        else fp.ofRat 1))

/-- z^k as the left-associated product the spec's formula denotes in the
source's evaluation order. -/
def cpow {α : Type} (fp : FloatOps α) (z : Cplx α) : Nat → Cplx α
  | 0 => ⟨fp.ofRat 1, fp.ofRat 0⟩
  | 1 => z
  | n + 2 => cmul fp (cpow fp z (n + 1)) z

/-- The spec's f(z) = z^k - 1. -/
def nr_spec_fz {α : Type} (fp : FloatOps α) (co : CplxOps α) (k : Nat) (z : Cplx α) :
    Cplx α :=
  co.csub (cpow fp z k) ⟨fp.ofRat 1, fp.ofRat 0⟩

/-- The spec's derivative k * z^(k-1) for k in {3, 4}, in the source's
evaluation order. -/
def nr_spec_dfz {α : Type} (fp : FloatOps α) (k : Nat) (z : Cplx α) : Cplx α :=
  match k with
  | 3 => cmul fp (cmul fp ⟨fp.ofRat 3, fp.ofRat 0⟩ z) z
  | 4 => cmul fp (cmul fp (cmul fp ⟨fp.ofRat 4, fp.ofRat 0⟩ z) z) z
  | _ => z

/-- The spec's update step z - f(z) / f'(z). -/
def nr_spec_step {α : Type} (fp : FloatOps α) (co : CplxOps α) (k : Nat) (z : Cplx α) :
    Cplx α :=
  co.csub z (co.cdiv (nr_spec_fz fp co k z) (nr_spec_dfz fp k z))

/-- The spec's loop, written from its words: stop when
|z_{n+1} - z_n|^2 < 1e-6 or i = max_iter. -/
def nr_spec_loop {α : Type} (fp : FloatOps α) (co : CplxOps α) (step : Cplx α → Cplx α)
    (max_iter : Nat) : Nat → Cplx α → Nat → Cplx α × Nat
  | 0, z, i => (z, i)
  | fuel + 1, z, i =>
    if fp.flt (arg_sq fp (co.csub (step z) z)) (fp.ofRat (1 / 1000000)) ||
        decide (i = max_iter) then
      (z, i)
    else
      nr_spec_loop fp co step max_iter fuel (step z) (i + 1)

/-- The spec's convergence factor:
0.5 - 0.5 * cos(0.1 * (i - log10(|z|^2) / log10(1e-6))) if i < max_iter
else 1.0. -/
def nr_spec_convergence {α : Type} (fp : FloatOps α) (z : Cplx α) (i max_iter : Nat) : α :=
  if i < max_iter then
    fp.fsub (fp.ofRat (1 / 2))
      (fp.fmul (fp.ofRat (1 / 2))
        (fp.fcos (fp.fmul (fp.ofRat (1 / 10))
          (fp.fsub (fp.ofNat i)
            (fp.fdiv (fp.flog10 (arg_sq fp z)) (fp.flog10 (fp.ofRat (1 / 1000000))))))))
  else fp.ofRat 1

/-- The spec's generate for NewtonRaphsonZ{k}: returns
(arg(z), i * convergence). -/
def nr_spec_generate {α : Type} (fp : FloatOps α) (co : CplxOps α) (k : Nat)
    (max_iter : Nat) (x y : α) : α × α :=
  match nr_spec_loop fp co (nr_spec_step fp co k) max_iter (max_iter + 1) ⟨x, y⟩ 0 with
  | (z, i) => (co.carg z, fp.fmul (fp.ofNat i) (nr_spec_convergence fp z i max_iter))

lemma nr_loop_eq_spec {α : Type} (fp : FloatOps α) (co : CplxOps α)
    (step : Cplx α → Cplx α) (max_iterations : Nat) :
    ∀ fuel z i, i ≤ max_iterations → max_iterations + 1 = fuel + i →
      nr_loop fp co step max_iterations fuel z i =
        nr_spec_loop fp co step max_iterations fuel z i := by
  intro fuel
  induction fuel with
  | zero => intro z i h1 h2; omega
  | succ fuel ih =>
    intro z i h1 h2
    have hcond : decide (i ≥ max_iterations) = decide (i = max_iterations) := by
      by_cases hc : i = max_iterations
      · subst hc; simp
      · have hge : ¬ i ≥ max_iterations := by omega
        simp [hge, hc]
    simp only [nr_loop, nr_spec_loop, hcond]
    cases hb : (fp.flt (arg_sq fp (co.csub (step z) z)) (fp.ofRat (1 / 1000000)) ||
        decide (i = max_iterations)) with
    | true => rfl
    | false =>
      rw [if_neg (by simp), if_neg (by simp)]
      have hne : i ≠ max_iterations := by
        intro hc
        subst hc
        simp at hb
      exact ih (step z) (i + 1) (by omega) (by omega)

/-- C7: for k in {3, 4}, NewtonRaphsonZ{k}::generate computes exactly the
spec's algorithm: iterate z <- z - f(z)/f'(z) with f(z) = z^k - 1 from
z0 = (x, y), stop when |z_{n+1} - z_n|^2 < 1e-6 (the source's i >=
max_iterations stop coincides with the spec's i = max_iter since i never
exceeds it), and return (arg(z), i * convergence) with the spec's
convergence factor. -/
theorem C7_newton_raphson_matches_spec {α : Type} (fp : FloatOps α) (co : CplxOps α)
    (max_iterations : Nat) (x y : α) :
    nr3_generate fp co max_iterations x y = nr_spec_generate fp co 3 max_iterations x y ∧
    nr4_generate fp co max_iterations x y = nr_spec_generate fp co 4 max_iterations x y := by
  constructor
  · unfold nr3_generate nr_spec_generate
    rw [show nr_spec_step fp co 3 = nr3_step fp co from rfl]
    rw [← nr_loop_eq_spec fp co (nr3_step fp co) max_iterations (max_iterations + 1) ⟨x, y⟩ 0
      (by omega) (by omega)]
    cases hsc : nr_loop fp co (nr3_step fp co) max_iterations (max_iterations + 1) ⟨x, y⟩ 0 with
    | mk z i =>
      by_cases hi : i < max_iterations <;>
        simp [convergence_value, nr_spec_convergence, hi]
  · unfold nr4_generate nr_spec_generate
    rw [show nr_spec_step fp co 4 = nr4_step fp co from rfl]
    rw [← nr_loop_eq_spec fp co (nr4_step fp co) max_iterations (max_iterations + 1) ⟨x, y⟩ 0
      (by omega) (by omega)]
    cases hsc : nr_loop fp co (nr4_step fp co) max_iterations (max_iterations + 1) ⟨x, y⟩ 0 with
    | mk z i =>
      by_cases hi : i < max_iterations <;>
        simp [utils_convergence_value, convergence_value, nr_spec_convergence, hi]

/-! ## FragmentTask JSON round trip
(src/shared/src/models/fragments/fragment_task.rs)

serde_json values are modelled by an inductive Json type; numbers carry
exact rationals (standing for the finite f64/u32/u16 values serde_json
round-trips exactly).  The field layout of the serde-derived impls, which
live outside src/, follows the spec's section 6 JSON shapes; the envelope
wrap/unwrap is from the source.  The text parse/print layer of serde_json
is external and omitted: the round trip is stated at the value level. -/

/-- serde_json `Value`. -/
inductive Json where
  | null
  | bool (b : Bool)
  | num (q : ℚ)
  | str (s : String)
  | arr (elements : List Json)
  | obj (fields : List (String × Json))

/-- `Complex` as serialized (re, im as f64); coordinates exact. -/
structure ComplexQ where
  re : ℚ
  im : ℚ
  deriving Repr, DecidableEq

/-- Modelled from the spec: `Julia` (julia.rs is not under src/): c and
divergence_threshold_square. -/
structure Julia where
  c : ComplexQ
  divergence_threshold_square : ℚ
  deriving Repr, DecidableEq

/-- `IteratedSinZ` from src/shared/src/models/fractal/iterated_sin_z.rs. -/
structure IteratedSinZ where
  c : ComplexQ
  deriving Repr, DecidableEq

/-- `FractalDescriptor` from
src/shared/src/models/fractal/fractal_descriptor.rs; Mandelbrot and the
NewtonRaphson variants wrap empty structs. -/
inductive FractalDescriptor where
  | Julia (j : Julia)
  | Mandelbrot
  | IteratedSinZ (s : IteratedSinZ)
  | NewtonRaphsonZ3
  | NewtonRaphsonZ4
  deriving Repr, DecidableEq

/-- `FragmentTask` from
src/shared/src/models/fragments/fragment_task.rs. -/
structure FragmentTask where
  id : U8Data
  fractal : FractalDescriptor
  max_iteration : Nat
  resolution : Resolution
  range : Range
  deriving Repr, DecidableEq

def json_of_nat (n : Nat) : Json := .num (n : ℚ)

def enc_complex (c : ComplexQ) : Json :=
  .obj [("re", .num c.re), ("im", .num c.im)]

def enc_u8data (d : U8Data) : Json :=
  .obj [("offset", json_of_nat d.offset), ("count", json_of_nat d.count)]

def enc_resolution (r : Resolution) : Json :=
  .obj [("nx", json_of_nat r.nx), ("ny", json_of_nat r.ny)]

def enc_point (p : Point) : Json :=
  .obj [("x", .num p.x), ("y", .num p.y)]

def enc_range (r : Range) : Json :=
  .obj [("min", enc_point r.min), ("max", enc_point r.max)]

/-- Externally-tagged serialization of FractalDescriptor: the variant
name is the single outer key. -/
def enc_fractal : FractalDescriptor → Json
  | .Julia j =>
    .obj [("Julia", .obj [("c", enc_complex j.c),
      ("divergence_threshold_square", .num j.divergence_threshold_square)])]
  | .Mandelbrot => .obj [("Mandelbrot", .obj [])]
  | .IteratedSinZ s => .obj [("IteratedSinZ", .obj [("c", enc_complex s.c)])]
  | .NewtonRaphsonZ3 => .obj [("NewtonRaphsonZ3", .obj [])]
  | .NewtonRaphsonZ4 => .obj [("NewtonRaphsonZ4", .obj [])]

def enc_fragment_task (t : FragmentTask) : Json :=
  .obj [("id", enc_u8data t.id), ("fractal", enc_fractal t.fractal),
    ("max_iteration", json_of_nat t.max_iteration),
    ("resolution", enc_resolution t.resolution),
    ("range", enc_range t.range)]

/-- `FragmentTask::to_json`: the serialization wrapped under the single
outer key "FragmentTask". -/
def fragment_task_to_json (t : FragmentTask) : Json :=
  .obj [("FragmentTask", enc_fragment_task t)]

def jfind : List (String × Json) → String → Option Json
  | [], _ => none
  | (k, v) :: rest, key => if k == key then some v else jfind rest key

def jfield (j : Json) (key : String) : Option Json :=
  match j with
  | .obj fields => jfind fields key
  | _ => none

/-- serde_json's `Value::index` (`v["FragmentTask"]`): Null for a missing
key or a non-object. -/
def jindex (j : Json) (key : String) : Json :=
  (jfield j key).getD .null

def dec_nat : Json → Option Nat
  | .num q => if q.den = 1 ∧ 0 ≤ q.num then some q.num.toNat else none
  | _ => none

def dec_rat : Json → Option ℚ
  | .num q => some q
  | _ => none

def dec_complex (j : Json) : Option ComplexQ := do
  let re ← dec_rat (← jfield j "re")
  let im ← dec_rat (← jfield j "im")
  pure ⟨re, im⟩

def dec_u8data (j : Json) : Option U8Data := do
  let offset ← dec_nat (← jfield j "offset")
  let count ← dec_nat (← jfield j "count")
  pure ⟨offset, count⟩

def dec_resolution (j : Json) : Option Resolution := do
  let nx ← dec_nat (← jfield j "nx")
  let ny ← dec_nat (← jfield j "ny")
  pure ⟨nx, ny⟩

def dec_point (j : Json) : Option Point := do
  let x ← dec_rat (← jfield j "x")
  let y ← dec_rat (← jfield j "y")
  pure ⟨x, y⟩

def dec_range (j : Json) : Option Range := do
  let lo ← dec_point (← jfield j "min")
  let hi ← dec_point (← jfield j "max")
  pure ⟨lo, hi⟩

/-- Externally-tagged deserialization: a map with exactly one key whose
name selects the variant. -/
def dec_fractal (j : Json) : Option FractalDescriptor :=
  match j with
  | .obj [(k, v)] =>
    if k == "Julia" then do
      let c ← dec_complex (← jfield v "c")
      let d ← dec_rat (← jfield v "divergence_threshold_square")
      pure (.Julia ⟨c, d⟩)
    else if k == "Mandelbrot" then some .Mandelbrot
    else if k == "IteratedSinZ" then do
      let c ← dec_complex (← jfield v "c")
      pure (.IteratedSinZ ⟨c⟩)
    else if k == "NewtonRaphsonZ3" then some .NewtonRaphsonZ3
    else if k == "NewtonRaphsonZ4" then some .NewtonRaphsonZ4
    else none
  | _ => none

def dec_fragment_task (j : Json) : Option FragmentTask := do
  let id ← dec_u8data (← jfield j "id")
  let fractal ← dec_fractal (← jfield j "fractal")
  let max_iteration ← dec_nat (← jfield j "max_iteration")
  let resolution ← dec_resolution (← jfield j "resolution")
  let range ← dec_range (← jfield j "range")
  pure ⟨id, fractal, max_iteration, resolution, range⟩

/-- `FragmentTask::from_json`: index the parsed value at "FragmentTask"
and deserialize. -/
def fragment_task_from_json (v : Json) : Option FragmentTask :=
  dec_fragment_task (jindex v "FragmentTask")

lemma dec_nat_json_of_nat (n : Nat) : dec_nat (json_of_nat n) = some n := by
  simp [dec_nat, json_of_nat]

lemma dec_complex_enc (c : ComplexQ) : dec_complex (enc_complex c) = some c := by
  simp [dec_complex, enc_complex, jfield, jfind, dec_rat]

lemma dec_u8data_enc (d : U8Data) : dec_u8data (enc_u8data d) = some d := by
  simp [dec_u8data, enc_u8data, jfield, jfind, dec_nat_json_of_nat]

lemma dec_resolution_enc (r : Resolution) : dec_resolution (enc_resolution r) = some r := by
  simp [dec_resolution, enc_resolution, jfield, jfind, dec_nat_json_of_nat]

lemma dec_point_enc (p : Point) : dec_point (enc_point p) = some p := by
  simp [dec_point, enc_point, jfield, jfind, dec_rat]

lemma dec_range_enc (r : Range) : dec_range (enc_range r) = some r := by
  simp [dec_range, enc_range, jfield, jfind, dec_point_enc]

lemma dec_fractal_enc (d : FractalDescriptor) : dec_fractal (enc_fractal d) = some d := by
  cases d <;>
    simp [dec_fractal, enc_fractal, jfield, jfind, dec_complex_enc, dec_rat]

/-- C8: deserializing the serialization of any FragmentTask (the JSON
wrapped under the single outer key "FragmentTask") returns a structurally
equal value. -/
theorem C8_fragment_task_roundtrip (t : FragmentTask) :
    fragment_task_from_json (fragment_task_to_json t) = some t := by
  obtain ⟨id, fractal, max_iteration, resolution, range⟩ := t
  simp [fragment_task_from_json, fragment_task_to_json, jindex, jfield, jfind,
    enc_fragment_task, dec_fragment_task, dec_u8data_enc, dec_fractal_enc,
    dec_nat_json_of_nat, dec_resolution_enc, dec_range_enc]

/-! ## CLI worker spawning (src/cli/src/main.rs) -/

/-- Rust's inclusive range `lo..=hi` as the list of its values. -/
def range_inclusive (lo hi : Nat) : List Nat :=
  List.range' lo (hi + 1 - lo)

/-- The Worker branch of `main`: `--count` defaults to 1 when omitted,
and `for _ in 0..=count` spawns one worker loop (one task handle) per
iteration of the inclusive range. -/
def spawned_worker_loops (count_arg : Option Nat) : Nat :=
  let count := match count_arg with
    | some count => count
    | none => 1
  (range_inclusive 0 count).length

/-- C9: the worker subcommand spawns count + 1 worker loops, not count:
the spawn loop iterates the inclusive range 0..=count.  With --count 1,
and also by default when --count is omitted, two loops are spawned; with
--count 3, four. -/
theorem C9_spawn_count_eval :
    spawned_worker_loops (some 1) = 2 ∧ spawned_worker_loops none = 2 ∧
    spawned_worker_loops (some 3) = 4 ∧
    ∀ c : Nat, spawned_worker_loops (some c) = c + 1 := by
  refine ⟨rfl, rfl, rfl, fun c => ?_⟩
  simp [spawned_worker_loops, range_inclusive]
